/-
Verification of the sentinelsat client (`sentinelsat/sentinel.py`) against its
natural-language specification.  The Python source is shallowly embedded below:
pure functions become Lean functions, the network/filesystem effects of the
download pipeline become explicit parameters (the pre-existing local file, the
outcome of each transfer attempt) together with an action trace, and Python
exceptions become `Except` / tagged outcome values.
-/
import Mathlib

namespace Sentinelsat

/-- A minimal JSON value model, enough for the shapes `get_products` inspects:
objects (Python `dict`), arrays (Python `list`) and scalar leaves. -/
inductive Json where
  | null : Json
  | str (s : String) : Json
  | num (n : Int) : Json
  | obj (fields : List (String × Json)) : Json
  | arr (elems : List Json) : Json

/-- Embedding of the `SentinelAPIError` exception class: it carries the HTTP
status, an optional error code, a message and the raw response body
(`sentinel.py`, lines 37-49). -/
structure SentinelAPIError where
  http_status : Option Nat
  code : Option Nat
  msg : String
  response_body : String

/-- Python `dict.__getitem__` on our JSON model: `some` on a present key of an
object, `none` where Python would raise `KeyError` (missing key) — lookups on
non-objects do not occur on the paths modelled here. -/
def Json.get? : Json → String → Option Json
  | .obj fields, k => fields.lookup k
  | _, _ => none

/-- Embedding of `SentinelAPI.get_products` (`sentinel.py`, lines 194-210).
`content_json` is `none` when `self.content.json()` raises `ValueError`
(response body is not JSON); `status_code` and `content_body` are the fields of
the stored response used to build the error.  The Python function returns
`[self.products]` when `feed.entry` is a dict, the value unchanged otherwise,
and `[]` on `KeyError`; the returned Python value is modelled as a `Json`. -/
def get_products (content_json : Option Json) (status_code : Nat)
    (content_body : String) : Except SentinelAPIError Json :=
  match content_json with
  | none => .error
      { http_status := some status_code
        code := none
        msg := "API response not valid. JSON decoding failed."
        response_body := content_body }
  | some j =>
    match j.get? "feed" with
    | none => .ok (.arr [])
    | some feed =>
      match feed.get? "entry" with
      | none => .ok (.arr [])
      | some products =>
        match products with
        | .obj fields => .ok (.arr [.obj fields])
        | p => .ok p

/-! ## Dates and `format_query` -/

/-- A naive Python `datetime` (no timezone), as used by `sentinel.py`. -/
structure PyDatetime where
  year : Nat
  month : Nat
  day : Nat
  hour : Nat
  minute : Nat
  second : Nat
deriving DecidableEq, Repr

/-- The argument of `format_date`: a `date`/`datetime` object or a string. -/
inductive DateInput where
  | dt (d : PyDatetime) : DateInput
  | str (s : String) : DateInput
deriving DecidableEq, Repr

def isLeapYear (y : Nat) : Bool :=
  (y % 4 == 0 && y % 100 != 0) || y % 400 == 0

def daysInMonth (y m : Nat) : Nat :=
  if m == 2 then (if isLeapYear y then 29 else 28)
  else if m == 4 || m == 6 || m == 9 || m == 11 then 30
  else 31

def pad2 (n : Nat) : String :=
  if n < 10 then "0" ++ toString n else toString n

def pad4 (n : Nat) : String :=
  if n < 10 then "000" ++ toString n
  else if n < 100 then "00" ++ toString n
  else if n < 1000 then "0" ++ toString n
  else toString n

/-- `strftime('%Y-%m-%dT%H:%M:%SZ')` on a naive datetime. -/
def strftimeIso (d : PyDatetime) : String :=
  pad4 d.year ++ "-" ++ pad2 d.month ++ "-" ++ pad2 d.day ++ "T" ++
    pad2 d.hour ++ ":" ++ pad2 d.minute ++ ":" ++ pad2 d.second ++ "Z"

/-- Success condition of `datetime.strptime(s, '%Y%m%d')`: eight digits
forming a valid calendar date with year in `datetime`'s range. -/
def validYYYYMMDD (s : String) : Bool :=
  let cs := s.toList
  cs.length == 8 && cs.all Char.isDigit &&
    (let y := (String.mk (cs.take 4)).toNat!
     let m := (String.mk ((cs.drop 4).take 2)).toNat!
     let d := (String.mk (cs.drop 6)).toNat!
     1 ≤ y && y ≤ 9999 && 1 ≤ m && m ≤ 12 && 1 ≤ d && d ≤ daysInMonth y m)

/-- The datetime produced by `datetime.strptime(s, '%Y%m%d')` on success
(midnight of the given day). -/
def parseYYYYMMDD (s : String) : PyDatetime :=
  let cs := s.toList
  { year := (String.mk (cs.take 4)).toNat!
    month := (String.mk ((cs.drop 4).take 2)).toNat!
    day := (String.mk (cs.drop 6)).toNat!
    hour := 0, minute := 0, second := 0 }

/-- Embedding of `format_date` (`sentinel.py`, lines 58-69): a date/datetime is
formatted with `strftime`; a string is parsed as `YYYYMMDD` and formatted, or
passed through unchanged when parsing raises `ValueError`. -/
def format_date : DateInput → String
  | .dt d => strftimeIso d
  | .str s => if validYYYYMMDD s then strftimeIso (parseYYYYMMDD s) else s

/-- `end_date - timedelta(hours=24)` on a naive datetime: exactly one calendar
day earlier (naive datetimes have no DST). -/
def minusOneDay (d : PyDatetime) : PyDatetime :=
  if d.day > 1 then { d with day := d.day - 1 }
  else if d.month > 1 then
    { d with month := d.month - 1, day := daysInMonth d.year (d.month - 1) }
  else
    { d with year := d.year - 1, month := 12, day := 31 }

/-- The keyword-filter loop of `format_query` (`sentinel.py`, lines 187-189):
`for kw in sorted(keywords.keys()): filters += ' AND (%s:%s)' % (kw,
keywords[kw])`. -/
def format_query_filters (keywords : List (String × String)) : String :=
  ((keywords.map Prod.fst).mergeSort (fun a b => a ≤ b)).foldl
    (fun acc kw => acc ++ " AND (" ++ kw ++ ":" ++
      ((keywords.lookup kw).getD "") ++ ")") ""

/-- Embedding of `SentinelAPI.format_query` (`sentinel.py`, lines 162-192).
Keyword arguments are a finite map, modelled as an association list with
distinct keys.  `none` models the exceptions the Python code can raise before
producing a string: the `assert` when both `area` and `point` are absent, and
the `TypeError` from `end_date - timedelta(hours=24)` when `initial_date` is
omitted and `end_date` is a string. -/
def format_query (area point : Option String)
    (initial_date : Option DateInput) (end_date : DateInput)
    (keywords : List (String × String)) : Option String :=
  if area.isNone && point.isNone then none
  else
    let initial? : Option DateInput :=
      match initial_date with
      | some d => some d
      | none =>
        match end_date with
        | .dt e => some (.dt (minusOneDay e))
        | .str _ => none
    match initial? with
    | none => none
    | some idate =>
      let acquisition_date :=
        "(beginPosition:[" ++ format_date idate ++ " TO " ++
          format_date end_date ++ "])"
      let query_area :=
        match area with
        | some a => " AND (footprint:\"Intersects(POLYGON((" ++ a ++ ")))\")"
        | none => ""
      let query_point :=
        match point with
        | some p => " AND (footprint:\"intersects(" ++ p ++ ")\")"
        | none => ""
      some (acquisition_date ++ query_area ++ query_point ++
        format_query_filters keywords)

/-! ## Product metadata, checksums and the single-product download -/

/-- The dictionary returned by `get_product_info` (`sentinel.py`, lines
306-316), restricted to the fields `download` reads. -/
structure ProductInfo where
  id : String
  title : String
  size : Nat
  md5 : String
  url : String
deriving DecidableEq, Repr

/-- A file on disk at the target path: its size in bytes and the (lowercase)
MD5 hex digest of its contents, abstracting `getsize` and `hashlib.md5`. -/
structure LocalFile where
  size : Nat
  md5 : String
deriving DecidableEq, Repr

/-- Python `str.lower()`: every character lowercased.  Defined by structural
recursion over the character list (rather than `String.toLower`'s
position-based loop) so that concrete instances reduce in the kernel. -/
def pyLower (s : String) : String :=
  ⟨s.data.map Char.toLower⟩

/-- Embedding of `md5_compare` (`sentinel.py`, lines 504-516): the digest
computed from the file and the server checksum are compared after lowering
both (`md5.hexdigest().lower() == checksum.lower()`).  The file's computed
digest is passed in directly. -/
def md5_compare (file_digest checksum : String) : Bool :=
  pyLower file_digest == pyLower checksum

/-- Helper for `pySplitWs`: accumulates the current token (reversed) while
scanning the character list. -/
def splitWs_go : List Char → List Char → List String
  | [], acc => if acc.isEmpty then [] else [String.mk acc.reverse]
  | c :: cs, acc =>
    if c.isWhitespace then
      if acc.isEmpty then splitWs_go cs []
      else String.mk acc.reverse :: splitWs_go cs []
    else splitWs_go cs (c :: acc)

/-- Python `str.split()` with no argument: split on whitespace runs, dropping
empty tokens.  Structurally recursive over the character list. -/
def pySplitWs (s : String) : List String :=
  splitWs_go s.data []

/-- `pycurl.version.split()[0].lower()`: first whitespace-separated token of
the version string, lowercased (`sentinel.py`, line 380). -/
def pycurl_version_token (v : String) : String :=
  pyLower ((pySplitWs v).headD "")

/-- Observable filesystem/network effects of `download`, in order. -/
inductive Action where
  | removeFile (path : String) : Action
  | transfer (url path : String) (resumeFrom : Nat) : Action
deriving DecidableEq, Repr

/-- Result of one `download` call: normal return or `InvalidChecksumError`. -/
inductive DownloadOutcome where
  | ok (path : String) (info : ProductInfo) : DownloadOutcome
  | invalidChecksumError : DownloadOutcome
deriving DecidableEq, Repr

/-- Lexicographic comparison of character lists by code point, the semantics
of Python's string `<=`. -/
def charListLe : List Char → List Char → Bool
  | [], _ => true
  | _ :: _, [] => false
  | a :: as, b :: bs =>
    if a.toNat < b.toNat then true
    else if b.toNat < a.toNat then false
    else charListLe as bs

/-- Python's string `<=`: lexicographic by code point. -/
def pyStrLe (a b : String) : Bool :=
  charListLe a.data b.data

/-- The guard of the workaround at `sentinel.py`, lines 379-380:
`exists(path) and getsize(path) >= 2 ** 31 and
pycurl.version.split()[0].lower() <= 'pycurl/7.43.0'` — note the `<=` is a
Python lexicographic string comparison. -/
def pycurl_workaround (existing : Option LocalFile)
    (pycurl_version : String) : Bool :=
  (match existing with
   | some f => decide (f.size ≥ 2 ^ 31)
   | none => false) &&
  pyStrLe (pycurl_version_token pycurl_version) "pycurl/7.43.0"

/-- The tail of `download` after the size-equality check (`sentinel.py`, lines
379-391): the pycurl >2GiB workaround, the homura transfer (which resumes from
the current length of any remaining file), and the optional checksum check.
`existing` is the file remaining at the target path, `transferred_md5` the
digest of the file homura leaves behind. -/
def download_rest (info : ProductInfo) (path : String) (checksum : Bool)
    (existing : Option LocalFile) (pycurl_version : String)
    (transferred_md5 : String) : List Action × DownloadOutcome :=
  let existing2 :=
    if pycurl_workaround existing pycurl_version then none else existing
  let acts1 :=
    if pycurl_workaround existing pycurl_version then [Action.removeFile path]
    else []
  let resumeFrom := match existing2 with | some f => f.size | none => 0
  let outcome :=
    if checksum && !md5_compare transferred_md5 info.md5 then
      DownloadOutcome.invalidChecksumError
    else .ok path info
  (acts1 ++ [Action.transfer info.url path resumeFrom], outcome)

/-- Embedding of `SentinelAPI.download` after its metadata-retry loop
(`sentinel.py`, lines 364-391; the retry loop of lines 355-362 is modelled
separately as `metadata_retry`).  The target path is
`directory_path/title.zip`; a pre-existing file of exactly the expected size
is accepted (optionally after a checksum check) without any transfer. -/
def download (info : ProductInfo) (directory_path : String)
    (checksum check_existing : Bool) (existing : Option LocalFile)
    (pycurl_version : String) (transferred_md5 : String) :
    List Action × DownloadOutcome :=
  let path := directory_path ++ "/" ++ info.title ++ ".zip"
  match existing with
  | some f =>
    if f.size = info.size then
      if !check_existing || md5_compare f.md5 info.md5 then
        ([], .ok path info)
      else
        let rest := download_rest info path checksum none pycurl_version
          transferred_md5
        (Action.removeFile path :: rest.1, rest.2)
    else
      download_rest info path checksum (some f) pycurl_version transferred_md5
  | none => download_rest info path checksum none pycurl_version transferred_md5

/-! ## The unbounded metadata-retry loop inside `download` -/

/-- One observation of the `while product_info is None` loop of `sentinel.py`,
lines 355-362: the number of `get_product_info` calls made, the number of
60-second sleeps taken, and the product info finally obtained. -/
structure RetryTrace where
  calls : Nat
  sleeps60 : Nat
  info : ProductInfo
deriving DecidableEq, Repr

/-- Embedding of the metadata-retry loop (`sentinel.py`, lines 355-362).
`fetch n` is the outcome of the `(n+1)`-st `get_product_info` call; every
`SentinelAPIError` is caught, a 60-second sleep is taken, and the loop
retries.  The loop has no exit other than a successful fetch, so the
embedding is fuel-indexed: `none` means the loop is still running after
`fuel` iterations. -/
def metadata_retry (fetch : Nat → Except SentinelAPIError ProductInfo) :
    Nat → Nat → Option RetryTrace
  | _, 0 => none
  | start, fuel + 1 =>
    match fetch start with
    | .ok info => some { calls := start + 1, sleeps60 := start, info := info }
    | .error _ => metadata_retry fetch (start + 1) fuel

/-! ## `download_all` -/

/-- A raw search-result entry, restricted to the fields `download_all` reads
(`product['id']`, `product['title']`). -/
structure RawProduct where
  id : String
  title : String
deriving DecidableEq, Repr

/-- Outcome of one `self.download(...)` call inside `download_all`'s retry
loop, as discriminated by its `except` clauses (`sentinel.py`, lines
428-438). -/
inductive AttemptOutcome where
  | success (path : String) (info : ProductInfo) : AttemptOutcome
  | fatal : AttemptOutcome
  | invalidChecksum : AttemptOutcome
  | otherError : AttemptOutcome
deriving DecidableEq, Repr

/-- The per-product retry loop of `download_all` (`sentinel.py`, lines
424-439).  `oracle j` is the outcome of the `(j+1)`-st `self.download` call
for this product; `remaining` is `remaining_attempts`; `path0` the
pre-computed `dir/title.zip`.  Returns the number of `self.download` calls
made together with either `.error ()` — the re-`raise` of a fatal exception —
or the final `(path, product_info)` pair stored into the result dict. -/
def attempt_loop (oracle : Nat → AttemptOutcome) (path0 : String) :
    Nat → Nat → Nat × Except Unit (String × Option ProductInfo)
  | _, 0 => (0, .ok (path0, none))
  | j, remaining + 1 =>
    match oracle j with
    | .success p info => (1, .ok (p, some info))
    | .fatal => (1, .error ())
    | .invalidChecksum =>
      let rest := attempt_loop oracle path0 (j + 1) remaining
      (rest.1 + 1, rest.2)
    | .otherError =>
      let rest := attempt_loop oracle path0 (j + 1) remaining
      (rest.1 + 1, rest.2)

/-- One result-dict entry of `download_all`, instrumented with the number of
`self.download` calls made for that product. -/
structure BatchEntry where
  calls : Nat
  path : String
  info : Option ProductInfo
deriving DecidableEq, Repr

/-- The product loop of `download_all` over the tail of the product list,
with `i` the index of the first product of `products` in the full list.
A fatal exception aborts the whole batch (`.error ()`); otherwise every
product contributes exactly one entry, in order. -/
def download_all_go (oracle : Nat → Nat → AttemptOutcome)
    (directory_path : String) (max_attempts : Nat) :
    List RawProduct → Nat → Except Unit (List BatchEntry)
  | [], _ => .ok []
  | p :: rest, i =>
    let path0 := directory_path ++ "/" ++ p.title ++ ".zip"
    match attempt_loop (oracle i) path0 0 max_attempts with
    | (_, .error _) => .error ()
    | (c, .ok (path, info)) =>
      match download_all_go oracle directory_path max_attempts rest (i + 1) with
      | .error _ => .error ()
      | .ok entries => .ok ({ calls := c, path := path, info := info } :: entries)

/-- Embedding of `SentinelAPI.download_all` (`sentinel.py`, lines 393-442).
`oracle i j` is the outcome of the `(j+1)`-st `self.download` call for the
`(i+1)`-st product of the current search result. -/
def download_all (products : List RawProduct)
    (oracle : Nat → Nat → AttemptOutcome) (directory_path : String)
    (max_attempts : Nat) : Except Unit (List BatchEntry) :=
  download_all_go oracle directory_path max_attempts products 0

/-! ## `get_products_size` -/

/-- One search-result entry as read by `get_products_size`: its `size`
property is the string `"<value> <unit>"`, modelled after splitting as the
numeric value (`float(...)`, modelled over `ℚ`) and the unit token. -/
structure SizeEntry where
  value : ℚ
  unit : String

/-- Round-half-to-even to an integer, the tie-breaking rule of Python 3's
built-in `round`. -/
def roundHalfEven (q : ℚ) : ℤ :=
  let f := ⌊q⌋
  let r := q - f
  if r < 1 / 2 then f
  else if 1 / 2 < r then f + 1
  else if Even f then f else f + 1

/-- Python's `round(x, 2)`, modelled over `ℚ`. -/
def pyround2 (q : ℚ) : ℚ :=
  (roundHalfEven (q * 100) : ℚ) / 100

/-- Embedding of `SentinelAPI.get_products_size` (`sentinel.py`, lines
212-224): each entry's value is divided by 1024 when its unit is `"MB"` and
by 1024·1024 when it is `"KB"` (two independent `if`s, as in the source), the
values are summed, and the sum is rounded once at the end to 2 decimals. -/
def get_products_size (entries : List SizeEntry) : ℚ :=
  let size_total := entries.foldl
    (fun acc e =>
      let v1 := if e.unit == "MB" then e.value / 1024 else e.value
      let v2 := if e.unit == "KB" then v1 / (1024 * 1024) else v1
      acc + v2) 0
  pyround2 size_total

/-! ## Default-argument evaluation time of `query` / `format_query` -/

/-- The `SentinelAPI` class object as produced by executing the class body.
Python evaluates a `def`'s default-argument expressions exactly once, when the
`def` statement runs — here at class-definition (module-import) time — so the
class object carries the concrete `datetime.now()` values captured then for
`query` (line 140) and `format_query` (line 163). -/
structure SentinelAPIClass where
  query_default_end : PyDatetime
  format_query_default_end : PyDatetime
deriving DecidableEq, Repr

/-- Executing the module (class body) at import time: both
`end_date=datetime.now()` defaults are evaluated from the import-time clock. -/
def defineClass (now_at_import : PyDatetime) : SentinelAPIClass :=
  { query_default_end := now_at_import
    format_query_default_end := now_at_import }

/-- A call of `format_query` at wall-clock time `now_at_call` with `end_date`
possibly omitted: an omitted `end_date` takes the value stored in the class
object (captured at import), never a fresh `datetime.now()` of the call. -/
def call_format_query (cls : SentinelAPIClass) (now_at_call : PyDatetime)
    (area point : Option String) (initial_date : Option DateInput)
    (end_date : Option DateInput) (keywords : List (String × String)) :
    Option String :=
  format_query area point initial_date
    (end_date.getD (.dt cls.format_query_default_end)) keywords

/-- A call of `query` (`sentinel.py`, lines 140-145) at wall-clock time
`now_at_call`: the query string it submits is `format_query` applied to its
arguments, with an omitted `end_date` taking `query`'s own import-time
default. -/
def call_query (cls : SentinelAPIClass) (now_at_call : PyDatetime)
    (area point : Option String) (initial_date : Option DateInput)
    (end_date : Option DateInput) (keywords : List (String × String)) :
    Option String :=
  format_query area point initial_date
    (end_date.getD (.dt cls.query_default_end)) keywords

/-! ## Spec-side numeric version comparison (for the pycurl workaround) -/

/-- Helper for `splitOnChar`: accumulates the current piece (reversed). -/
def splitOnChar_go (sep : Char) : List Char → List Char → List String
  | [], acc => [String.mk acc.reverse]
  | c :: cs, acc =>
    if c == sep then String.mk acc.reverse :: splitOnChar_go sep cs []
    else splitOnChar_go sep cs (c :: acc)

/-- Python `str.split(sep)` for a one-character separator: keeps empty
pieces, always returns at least one piece. -/
def splitOnChar (sep : Char) (s : String) : List String :=
  splitOnChar_go sep s.data []

/-- Parse a decimal digit string, structurally over the character list. -/
def pyParseNat? (s : String) : Option Nat :=
  if !s.data.isEmpty && s.data.all Char.isDigit then
    some (s.data.foldl (fun n c => n * 10 + (c.toNat - 48)) 0)
  else none

/-- Modelled from the spec: "encode as a parsed semantic version compared
numerically, not a lexicographic string compare".  Parses a dotted version
string into its numeric components. -/
def spec_parse_version_nums (s : String) : List Nat :=
  (splitOnChar '.' s).map (fun p => (pyParseNat? p).getD 0)

/-- Modelled from the spec: numeric comparison of parsed version component
lists, most significant component first. -/
def spec_nums_le : List Nat → List Nat → Bool
  | [], _ => true
  | _ :: _, [] => false
  | a :: as, b :: bs =>
    if a < b then true else if b < a then false else spec_nums_le as bs

/-- Modelled from the spec: "the installed transport library version is at or
below a known-broken version", with the installed version read from the first
token of `pycurl.version` (`"PycURL/x.y.z"`) and compared numerically. -/
def spec_version_at_or_below (pycurl_version broken : String) : Bool :=
  let token := pycurl_version_token pycurl_version
  spec_nums_le (spec_parse_version_nums ((splitOnChar '/' token).getD 1 ""))
    (spec_parse_version_nums broken)

/-! ## Theorems -/

/-- C5: `get_products` normalizes the single-vs-list ambiguity of the catalog
response: a response whose `feed.entry` is a single object yields the same
one-element sequence as a native one-element list, and a response with no
`entry` key yields an empty sequence rather than an error. -/
theorem C5_get_products_normalizes (fields : List (String × Json))
    (feedFields : List (String × Json)) (status : Nat) (body : String)
    (hzero : feedFields.lookup "entry" = none) :
    get_products (some (.obj [("feed", .obj [("entry", .obj fields)])]))
        status body
      = get_products
          (some (.obj [("feed", .obj [("entry", .arr [.obj fields])])]))
          status body
    ∧ get_products (some (.obj [("feed", .obj [("entry", .obj fields)])]))
        status body
      = .ok (.arr [.obj fields])
    ∧ get_products (some (.obj [("feed", .obj feedFields)])) status body
      = .ok (.arr []) := by
  refine ⟨rfl, rfl, ?_⟩
  simp [get_products, Json.get?, hzero]

/-- Witness for C5 at a concrete response. -/
theorem C5_get_products_normalizes_witness :
    get_products (some (.obj [("feed", .obj [("entry", .obj [("id", .str "a")])])])) 200 ""
      = get_products
          (some (.obj [("feed", .obj [("entry", .arr [.obj [("id", .str "a")]])])]))
          200 ""
    ∧ get_products (some (.obj [("feed", .obj [("entry", .obj [("id", .str "a")])])])) 200 ""
      = .ok (.arr [.obj [("id", .str "a")]])
    ∧ get_products (some (.obj [("feed", .obj [("opensearch:totalResults", .num 0)])])) 200 ""
      = .ok (.arr []) :=
  C5_get_products_normalizes [("id", .str "a")]
    [("opensearch:totalResults", .num 0)] 200 "" rfl

/-- C10: the default `end_date` of `format_query` (and `query`) is evaluated
once, at class-definition (module-import) time; two calls at different
wall-clock times with the same arguments and no explicit dates produce
identical query strings, and the default date range tracks the import-time
clock, not the call-time clock. -/
theorem C10_default_end_date_import_time (t_import t1 t2 : PyDatetime)
    (area point : Option String) (initial_date : Option DateInput)
    (keywords : List (String × String)) :
    call_format_query (defineClass t_import) t1 area point initial_date none
        keywords
      = call_format_query (defineClass t_import) t2 area point initial_date
          none keywords
    ∧ call_query (defineClass t_import) t1 area point initial_date none
        keywords
      = call_query (defineClass t_import) t2 area point initial_date none
          keywords
    ∧ call_format_query (defineClass t_import) t1 area point initial_date none
        keywords
      = format_query area point initial_date (.dt t_import) keywords :=
  ⟨rfl, rfl, rfl⟩

/-- Per-entry size in GB exactly as the spec words it: unit `GB` is unchanged,
`MB` is divided by 1024, `KB` by 1024². -/
def spec_entry_gb (e : SizeEntry) : ℚ :=
  if e.unit = "GB" then e.value
  else if e.unit = "MB" then e.value / 1024
  else e.value / (1024 * 1024)

theorem size_foldl_eq_sum (l : List SizeEntry) (a : ℚ) :
    l.foldl
      (fun acc e =>
        let v1 := if e.unit == "MB" then e.value / 1024 else e.value
        let v2 := if e.unit == "KB" then v1 / (1024 * 1024) else v1
        acc + v2) a
      = a + (l.map (fun e =>
          let v1 := if e.unit == "MB" then e.value / 1024 else e.value
          if e.unit == "KB" then v1 / (1024 * 1024) else v1)).sum := by
  induction l generalizing a with
  | nil => simp
  | cons e t ih =>
    rw [List.foldl_cons, ih, List.map_cons, List.sum_cons, add_assoc]

/-- C9: `get_products_size` converts each entry's `"<value> <unit>"` size to
GB (MB ÷ 1024, KB ÷ 1024², GB unchanged), sums over all entries, and rounds
once at the end to 2 decimals; on sizes `"500 MB"` and `"1 KB"` it returns
`round(500/1024 + 1/1024/1024, 2)`. -/
theorem C9_get_products_size (entries : List SizeEntry)
    (h : ∀ e ∈ entries, e.unit = "GB" ∨ e.unit = "MB" ∨ e.unit = "KB") :
    get_products_size entries = pyround2 ((entries.map spec_entry_gb).sum)
    ∧ get_products_size [⟨500, "MB"⟩, ⟨1, "KB"⟩]
      = pyround2 (500 / 1024 + 1 / (1024 * 1024)) := by
  constructor
  · unfold get_products_size
    rw [size_foldl_eq_sum]
    have hmap : entries.map (fun e =>
        let v1 := if e.unit == "MB" then e.value / 1024 else e.value
        if e.unit == "KB" then v1 / (1024 * 1024) else v1)
        = entries.map spec_entry_gb := by
      apply List.map_congr_left
      intro e he
      rcases h e he with hu | hu | hu <;> simp [spec_entry_gb, hu]
    rw [hmap, zero_add]
  · unfold get_products_size
    rw [size_foldl_eq_sum]
    simp

/-- Witness for C9 at the spec's concrete entry list. -/
theorem C9_get_products_size_witness :
    get_products_size [⟨500, "MB"⟩, ⟨1, "KB"⟩]
      = pyround2 (([⟨500, "MB"⟩, ⟨1, "KB"⟩] : List SizeEntry).map
          spec_entry_gb).sum
    ∧ get_products_size [⟨500, "MB"⟩, ⟨1, "KB"⟩]
      = pyround2 (500 / 1024 + 1 / (1024 * 1024)) :=
  C9_get_products_size [⟨500, "MB"⟩, ⟨1, "KB"⟩]
    (by intro e he; fin_cases he <;> simp)

theorem lookup_eq_of_perm_of_nodup {l₁ l₂ : List (String × String)}
    (k : String) (hp : l₁.Perm l₂) :
    (l₁.map Prod.fst).Nodup → l₁.lookup k = l₂.lookup k := by
  induction hp with
  | nil => intro _; rfl
  | cons x p ih =>
    intro hn
    obtain ⟨xk, xv⟩ := x
    simp only [List.map_cons, List.nodup_cons] at hn
    cases hk : k == xk <;> simp [List.lookup, hk, ih hn.2]
  | swap x y t =>
    intro hn
    obtain ⟨xk, xv⟩ := x
    obtain ⟨yk, yv⟩ := y
    simp only [List.map_cons, List.nodup_cons, List.mem_cons] at hn
    have hne : yk ≠ xk := fun h => hn.1 (Or.inl h)
    cases hky : k == yk <;> cases hkx : k == xk
    · simp [List.lookup, hky, hkx]
    · simp [List.lookup, hky, hkx]
    · simp [List.lookup, hky, hkx]
    · exact absurd ((eq_of_beq hky).symm.trans (eq_of_beq hkx)) hne
  | trans p₁ p₂ ih₁ ih₂ =>
    intro hn
    have hn₂ := ((p₁.map Prod.fst).nodup_iff).mp hn
    exact (ih₁ hn).trans (ih₂ hn₂)

theorem sorted_keys_eq_of_perm {l₁ l₂ : List (String × String)}
    (hp : l₁.Perm l₂) :
    (l₁.map Prod.fst).mergeSort (fun a b => a ≤ b)
      = (l₂.map Prod.fst).mergeSort (fun a b => a ≤ b) := by
  apply List.eq_of_perm_of_sorted (r := (· ≤ ·))
  · exact ((List.mergeSort_perm _ _).trans (hp.map Prod.fst)).trans
      (List.mergeSort_perm _ _).symm
  · exact List.sorted_mergeSort' _
  · exact List.sorted_mergeSort' _

theorem format_query_filters_eq_of_perm {l₁ l₂ : List (String × String)}
    (hp : l₁.Perm l₂) (hn : (l₁.map Prod.fst).Nodup) :
    format_query_filters l₁ = format_query_filters l₂ := by
  unfold format_query_filters
  rw [sorted_keys_eq_of_perm hp]
  have hfun : (fun (acc : String) kw => acc ++ " AND (" ++ kw ++ ":" ++
        ((l₁.lookup kw).getD "") ++ ")")
      = (fun (acc : String) kw => acc ++ " AND (" ++ kw ++ ":" ++
        ((l₂.lookup kw).getD "") ++ ")") := by
    funext acc kw
    rw [lookup_eq_of_perm_of_nodup kw hp hn]
  rw [hfun]

/-- C4: `format_query` is deterministic in the keyword filters — two filter
mappings with equal key/value pairs in any insertion order give byte-identical
query strings — and its output is the concatenation, in fixed order, of the
date-range clause, the area clause if present, the point clause if present,
then one clause per filter key in lexicographically sorted key order. -/
theorem C4_format_query_deterministic (area point : Option String)
    (initial_date : Option DateInput) (end_date : DateInput)
    (kws1 kws2 : List (String × String))
    (hperm : kws1.Perm kws2) (hnd : (kws1.map Prod.fst).Nodup) :
    format_query area point initial_date end_date kws1
      = format_query area point initial_date end_date kws2
    ∧ (∀ q, format_query area point initial_date end_date kws1 = some q →
        ∃ idate : DateInput,
          q = "(beginPosition:[" ++ format_date idate ++ " TO "
                ++ format_date end_date ++ "])"
              ++ (match area with
                  | some a =>
                    " AND (footprint:\"Intersects(POLYGON((" ++ a ++ ")))\")"
                  | none => "")
              ++ (match point with
                  | some p => " AND (footprint:\"intersects(" ++ p ++ ")\")"
                  | none => "")
              ++ format_query_filters kws1)
    ∧ ((kws1.map Prod.fst).mergeSort (fun a b => a ≤ b)).Sorted (· ≤ ·)
    ∧ ((kws1.map Prod.fst).mergeSort (fun a b => a ≤ b)).Perm
        (kws1.map Prod.fst) := by
  refine ⟨?_, ?_, List.sorted_mergeSort' _, List.mergeSort_perm _ _⟩
  · unfold format_query
    simp only [format_query_filters_eq_of_perm hperm hnd]
  · intro q hq
    simp only [format_query] at hq
    split at hq
    · exact absurd hq (by simp)
    · split at hq
      · exact absurd hq (by simp)
      · rename_i idate _
        exact ⟨idate, (Option.some.inj hq).symm⟩

/-- Witness for C4 at two concrete, differently ordered filter mappings. -/
theorem C4_format_query_deterministic_witness :
    format_query (some "0 0,1 1") none (some (.str "20151219"))
        (.str "20151228") [("producttype", "SLC"), ("platformname", "Sentinel-1")]
      = format_query (some "0 0,1 1") none (some (.str "20151219"))
        (.str "20151228")
        [("platformname", "Sentinel-1"), ("producttype", "SLC")] :=
  (C4_format_query_deterministic (some "0 0,1 1") none (some (.str "20151219"))
    (.str "20151228") [("producttype", "SLC"), ("platformname", "Sentinel-1")]
    [("platformname", "Sentinel-1"), ("producttype", "SLC")]
    (List.Perm.swap _ _ _) (by decide)).1

theorem pycurl_workaround_none (pv : String) :
    pycurl_workaround none pv = false := rfl

/-- C3: with a pre-existing file whose size equals the expected size,
`download` with `check_existing=False` returns `(path, product_info)` with no
filesystem or network action at all; with `check_existing=True` a matching
checksum also returns immediately, and a mismatching checksum deletes the
existing file and falls through to a fresh transfer. -/
theorem C3_download_skips_complete_file (info : ProductInfo) (dir : String)
    (cs : Bool) (f : LocalFile) (pv tmd5 : String)
    (hsize : f.size = info.size) :
    download info dir cs false (some f) pv tmd5
      = ([], .ok (dir ++ "/" ++ info.title ++ ".zip") info)
    ∧ (md5_compare f.md5 info.md5 = true →
        download info dir cs true (some f) pv tmd5
          = ([], .ok (dir ++ "/" ++ info.title ++ ".zip") info))
    ∧ (md5_compare f.md5 info.md5 = false →
        (download info dir cs true (some f) pv tmd5).1
          = [Action.removeFile (dir ++ "/" ++ info.title ++ ".zip"),
             Action.transfer info.url (dir ++ "/" ++ info.title ++ ".zip") 0]) := by
  refine ⟨?_, ?_, ?_⟩
  · simp [download, hsize]
  · intro h
    simp [download, hsize, h]
  · intro h
    simp [download, download_rest, pycurl_workaround_none, hsize, h]

/-- Witness for C3 at a concrete complete file. -/
theorem C3_download_skips_complete_file_witness :
    download ⟨"id1", "T1", 4096, "aa", "http://u"⟩ "." true false
        (some ⟨4096, "aa"⟩) "PycURL/7.43.0" "aa"
      = ([], .ok "./T1.zip" ⟨"id1", "T1", 4096, "aa", "http://u"⟩) :=
  (C3_download_skips_complete_file ⟨"id1", "T1", 4096, "aa", "http://u"⟩ "."
    true ⟨4096, "aa"⟩ "PycURL/7.43.0" "aa" rfl).1

/-- C6: with `checksum=True`, a post-download checksum mismatch yields
`InvalidChecksumError` and the transfer is the last action taken — the
downloaded file is not deleted — unless the pre-existing file was already
accepted as complete, in which case no transfer happened at all; and the
checksum comparison is case-insensitive, so `"ABC123"` matches `"abc123"`. -/
theorem C6_checksum_mismatch_raises (info : ProductInfo) (dir : String)
    (ce : Bool) (existing : Option LocalFile) (pv tmd5 : String)
    (hmm : md5_compare tmd5 info.md5 = false) :
    md5_compare "ABC123" "abc123" = true
    ∧ (((download info dir true ce existing pv tmd5).1 = []
        ∧ (download info dir true ce existing pv tmd5).2
          = .ok (dir ++ "/" ++ info.title ++ ".zip") info)
      ∨ ((download info dir true ce existing pv tmd5).2
          = .invalidChecksumError
        ∧ ∃ r, (download info dir true ce existing pv tmd5).1.getLast?
            = some (Action.transfer info.url
                (dir ++ "/" ++ info.title ++ ".zip") r))) := by
  constructor
  · rfl
  · match existing with
    | none =>
      right
      constructor
      · simp [download, download_rest, hmm, pycurl_workaround_none]
      · exact ⟨0, by simp [download, download_rest, pycurl_workaround_none]⟩
    | some f =>
      by_cases hsz : f.size = info.size
      · by_cases hck : (!ce || md5_compare f.md5 info.md5) = true
        · left
          constructor <;> simp [download, hsz, hck]
        · right
          constructor
          · simp [download, download_rest, hsz, hck, hmm,
              pycurl_workaround_none]
          · exact ⟨0, by simp [download, download_rest, hsz, hck,
              pycurl_workaround_none]⟩
      · by_cases hw : pycurl_workaround (some f) pv = true
        · right
          constructor
          · simp [download, download_rest, hsz, hmm]
          · exact ⟨0, by simp [download, download_rest, hsz, hw]⟩
        · right
          constructor
          · simp [download, download_rest, hsz, hmm]
          · exact ⟨f.size, by simp [download, download_rest, hsz, hw]⟩

/-- Witness for C6 at a concrete mismatching transfer. -/
theorem C6_checksum_mismatch_raises_witness :
    md5_compare "ABC123" "abc123" = true
    ∧ (((download ⟨"id1", "T1", 100, "aa", "http://u"⟩ "." true false none
          "PycURL/7.43.0" "bb").1 = []
        ∧ (download ⟨"id1", "T1", 100, "aa", "http://u"⟩ "." true false none
            "PycURL/7.43.0" "bb").2
          = .ok ("." ++ "/" ++ "T1" ++ ".zip") ⟨"id1", "T1", 100, "aa", "http://u"⟩)
      ∨ ((download ⟨"id1", "T1", 100, "aa", "http://u"⟩ "." true false none
            "PycURL/7.43.0" "bb").2
          = .invalidChecksumError
        ∧ ∃ r, (download ⟨"id1", "T1", 100, "aa", "http://u"⟩ "." true false
              none "PycURL/7.43.0" "bb").1.getLast?
            = some (Action.transfer "http://u" ("." ++ "/" ++ "T1" ++ ".zip") r))) :=
  C6_checksum_mismatch_raises ⟨"id1", "T1", 100, "aa", "http://u"⟩ "." false
    none "PycURL/7.43.0" "bb" rfl

/-- C2 as stated is false on the code: the workaround guard compares version
strings lexicographically, so pycurl 7.100.0 — numerically well above the
known-broken 7.43.0, for which the spec says the partial file is kept and
resumed — still has its ≥ 2 GiB partial file deleted and the transfer
restarted from byte 0. -/
theorem C2_counterexample :
    spec_version_at_or_below "PycURL/7.100.0 libcurl/7.64.0" "7.43.0" = false
    ∧ (download ⟨"id1", "T1", 2 ^ 32, "aa", "http://u"⟩ "." false false
        (some ⟨2 ^ 31, "bb"⟩) "PycURL/7.100.0 libcurl/7.64.0" "aa").1
      = [Action.removeFile "./T1.zip",
         Action.transfer "http://u" "./T1.zip" 0] := by
  constructor
  · rfl
  · rfl

/-- C2 amended: for a pre-existing file of at least 2 GiB whose size differs
from the expected size, `download` deletes it before the transfer (resuming
from byte 0) exactly when the lowercased first token of `pycurl.version` is
*lexicographically* at most `"pycurl/7.43.0"`; otherwise the file is kept and
the transfer resumes from its current length.  (The code's comparison is a
string comparison, which coincides with the numeric one only when the
compared components have equal digit counts.) -/
theorem C2_amended_workaround_lexicographic (info : ProductInfo)
    (dir : String) (cs ce : Bool) (f : LocalFile) (pv tmd5 : String)
    (hsize : f.size ≠ info.size) (hbig : 2 ^ 31 ≤ f.size) :
    (pyStrLe (pycurl_version_token pv) "pycurl/7.43.0" = true →
      (download info dir cs ce (some f) pv tmd5).1
        = [Action.removeFile (dir ++ "/" ++ info.title ++ ".zip"),
           Action.transfer info.url (dir ++ "/" ++ info.title ++ ".zip") 0])
    ∧ (pyStrLe (pycurl_version_token pv) "pycurl/7.43.0" = false →
      (download info dir cs ce (some f) pv tmd5).1
        = [Action.transfer info.url (dir ++ "/" ++ info.title ++ ".zip")
            f.size]) := by
  constructor
  · intro hle
    have hw : pycurl_workaround (some f) pv = true := by
      have h1 : decide (f.size ≥ 2 ^ 31) = true := decide_eq_true hbig
      show (decide (f.size ≥ 2 ^ 31) &&
        pyStrLe (pycurl_version_token pv) "pycurl/7.43.0") = true
      rw [h1, hle]
      rfl
    simp [download, download_rest, hsize, hw]
  · intro hgt
    have hw : pycurl_workaround (some f) pv = false := by
      simp [pycurl_workaround, hgt]
    simp [download, download_rest, hsize, hw]

/-- Witness for the amended C2 on both sides of the version comparison. -/
theorem C2_amended_workaround_lexicographic_witness :
    ((pyStrLe (pycurl_version_token "PycURL/7.43.0") "pycurl/7.43.0" = true →
      (download ⟨"id1", "T1", 2 ^ 32, "aa", "http://u"⟩ "." false false
          (some ⟨2 ^ 31, "bb"⟩) "PycURL/7.43.0" "aa").1
        = [Action.removeFile ("." ++ "/" ++ "T1" ++ ".zip"),
           Action.transfer "http://u" ("." ++ "/" ++ "T1" ++ ".zip") 0])
    ∧ (pyStrLe (pycurl_version_token "PycURL/7.43.0") "pycurl/7.43.0" = false →
      (download ⟨"id1", "T1", 2 ^ 32, "aa", "http://u"⟩ "." false false
          (some ⟨2 ^ 31, "bb"⟩) "PycURL/7.43.0" "aa").1
        = [Action.transfer "http://u" ("." ++ "/" ++ "T1" ++ ".zip")
            (2 ^ 31)]))
    ∧ ((pyStrLe (pycurl_version_token "PycURL/7.44.0") "pycurl/7.43.0" = true →
      (download ⟨"id1", "T1", 2 ^ 32, "aa", "http://u"⟩ "." false false
          (some ⟨2 ^ 31, "bb"⟩) "PycURL/7.44.0" "aa").1
        = [Action.removeFile ("." ++ "/" ++ "T1" ++ ".zip"),
           Action.transfer "http://u" ("." ++ "/" ++ "T1" ++ ".zip") 0])
    ∧ (pyStrLe (pycurl_version_token "PycURL/7.44.0") "pycurl/7.43.0" = false →
      (download ⟨"id1", "T1", 2 ^ 32, "aa", "http://u"⟩ "." false false
          (some ⟨2 ^ 31, "bb"⟩) "PycURL/7.44.0" "aa").1
        = [Action.transfer "http://u" ("." ++ "/" ++ "T1" ++ ".zip")
            (2 ^ 31)])) :=
  ⟨C2_amended_workaround_lexicographic ⟨"id1", "T1", 2 ^ 32, "aa", "http://u"⟩
      "." false false ⟨2 ^ 31, "bb"⟩ "PycURL/7.43.0" "aa"
      (by decide) (by norm_num),
   C2_amended_workaround_lexicographic ⟨"id1", "T1", 2 ^ 32, "aa", "http://u"⟩
      "." false false ⟨2 ^ 31, "bb"⟩ "PycURL/7.44.0" "aa"
      (by decide) (by norm_num)⟩

theorem metadata_retry_succeeds (e : SentinelAPIError) (info : ProductInfo)
    (n : Nat) : ∀ (fuel start : Nat), start ≤ n → n < start + fuel →
    metadata_retry (fun i => if i < n then .error e else .ok info) start fuel
      = some { calls := n + 1, sleeps60 := n, info := info } := by
  intro fuel
  induction fuel with
  | zero =>
    intro start h1 h2
    exact absurd h2 (by omega)
  | succ fl ih =>
    intro start h1 h2
    by_cases hlt : start < n
    · simp only [metadata_retry, hlt, if_true]
      exact ih (start + 1) hlt (by omega)
    · have heq : start = n := Nat.le_antisymm h1 (Nat.not_lt.mp hlt)
      subst heq
      simp [metadata_retry]

theorem metadata_retry_all_errors (e : SentinelAPIError) :
    ∀ (fuel start : Nat),
      metadata_retry (fun _ => .error e) start fuel = none := by
  intro fuel
  induction fuel with
  | zero => intro start; rfl
  | succ fl ih =>
    intro start
    simpa [metadata_retry] using ih (start + 1)

/-- C7: the metadata fetch at the start of `download` is retried indefinitely
with a fixed 60-second wait: when the first `n` calls raise a catalog error
and the `(n+1)`-st succeeds, the loop swallows every error, sleeps `n` times,
makes exactly `n + 1` calls — for arbitrarily large `n`, so the loop has no
upper bound on attempts — and when every call errors the loop is still
running at every fuel bound, never propagating the error to the caller. -/
theorem C7_metadata_retry_unbounded (e : SentinelAPIError)
    (info : ProductInfo) (n fuel : Nat) (hfuel : n < fuel) :
    metadata_retry (fun i => if i < n then .error e else .ok info) 0 fuel
      = some { calls := n + 1, sleeps60 := n, info := info }
    ∧ (∀ fuel2 start,
        metadata_retry (fun _ => .error e) start fuel2 = none) :=
  ⟨metadata_retry_succeeds e info n fuel 0 (Nat.zero_le n) (by omega),
   fun fuel2 start => metadata_retry_all_errors e fuel2 start⟩

/-- Witness for C7: three failing calls, then success, with fuel 10. -/
theorem C7_metadata_retry_unbounded_witness :
    metadata_retry
        (fun i => if i < 3 then .error ⟨some 503, none, "err", "body"⟩
          else .ok ⟨"i", "t", 1, "m", "u"⟩) 0 10
      = some { calls := 4, sleeps60 := 3, info := ⟨"i", "t", 1, "m", "u"⟩ } :=
  (C7_metadata_retry_unbounded ⟨some 503, none, "err", "body"⟩
    ⟨"i", "t", 1, "m", "u"⟩ 3 10 (by omega)).1

theorem attempt_loop_calls_le (o : Nat → AttemptOutcome) (p0 : String) :
    ∀ (r j : Nat), (attempt_loop o p0 j r).1 ≤ r := by
  intro r
  induction r with
  | zero => intro j; simp [attempt_loop]
  | succ r ih =>
    intro j
    cases ho : o j with
    | success p i => simp [attempt_loop, ho]
    | fatal => simp [attempt_loop, ho]
    | invalidChecksum =>
      simpa [attempt_loop, ho] using Nat.succ_le_succ (ih (j + 1))
    | otherError =>
      simpa [attempt_loop, ho] using Nat.succ_le_succ (ih (j + 1))

theorem attempt_loop_no_fatal (o : Nat → AttemptOutcome) (p0 : String)
    (hnf : ∀ j, o j ≠ .fatal) :
    ∀ (r j : Nat), ∃ pr, (attempt_loop o p0 j r).2 = .ok pr := by
  intro r
  induction r with
  | zero => intro j; exact ⟨(p0, none), rfl⟩
  | succ r ih =>
    intro j
    cases ho : o j with
    | success p i => exact ⟨(p, some i), by simp [attempt_loop, ho]⟩
    | fatal => exact absurd ho (hnf j)
    | invalidChecksum =>
      obtain ⟨pr, hpr⟩ := ih (j + 1)
      exact ⟨pr, by simp [attempt_loop, ho, hpr]⟩
    | otherError =>
      obtain ⟨pr, hpr⟩ := ih (j + 1)
      exact ⟨pr, by simp [attempt_loop, ho, hpr]⟩

theorem attempt_loop_all_errors (o : Nat → AttemptOutcome) (p0 : String)
    (herr : ∀ j, o j = .invalidChecksum ∨ o j = .otherError) :
    ∀ (r j : Nat), attempt_loop o p0 j r = (r, .ok (p0, none)) := by
  intro r
  induction r with
  | zero => intro j; rfl
  | succ r ih =>
    intro j
    rcases herr j with h | h <;> simp [attempt_loop, h, ih (j + 1)]

theorem attempt_loop_fatal_at (o : Nat → AttemptOutcome) (p0 : String) :
    ∀ (n r j : Nat), n < r →
    (∀ k, k < n → o (j + k) = .invalidChecksum ∨ o (j + k) = .otherError) →
    o (j + n) = .fatal →
    attempt_loop o p0 j r = (n + 1, .error ()) := by
  intro n
  induction n with
  | zero =>
    intro r j hr hpre hf
    cases r with
    | zero => exact absurd hr (by omega)
    | succ r =>
      have hj : o j = .fatal := by simpa using hf
      simp [attempt_loop, hj]
  | succ n ih =>
    intro r j hr hpre hf
    cases r with
    | zero => exact absurd hr (by omega)
    | succ r =>
      have hrec : attempt_loop o p0 (j + 1) r = (n + 1, .error ()) := by
        refine ih r (j + 1) (by omega) (fun k hk => ?_) ?_
        · have harith : j + 1 + k = j + (k + 1) := by omega
          rw [harith]
          exact hpre (k + 1) (by omega)
        · have harith : j + 1 + n = j + (n + 1) := by omega
          rw [harith]
          exact hf
      have hj : o j = .invalidChecksum ∨ o j = .otherError := by
        simpa using hpre 0 (by omega)
      rcases hj with h | h <;> simp [attempt_loop, h, hrec]

theorem download_all_go_spec (oracle : Nat → Nat → AttemptOutcome)
    (dir : String) (ma : Nat) (hnf : ∀ i j, oracle i j ≠ .fatal) :
    ∀ (ps : List RawProduct) (i : Nat),
    ∃ entries, download_all_go oracle dir ma ps i = .ok entries
      ∧ entries.length = ps.length
      ∧ (∀ en ∈ entries, en.calls ≤ ma)
      ∧ (∀ k (hk : k < ps.length),
          (∀ j, oracle (i + k) j = .invalidChecksum
            ∨ oracle (i + k) j = .otherError) →
          entries[k]? = some
            ⟨ma, dir ++ "/" ++ (ps.get ⟨k, hk⟩).title ++ ".zip", none⟩) := by
  intro ps
  induction ps with
  | nil =>
    intro i
    exact ⟨[], rfl, rfl, by simp, by simp⟩
  | cons p rest ih =>
    intro i
    obtain ⟨entriesT, hT, hlenT, hcallsT, hkT⟩ := ih (i + 1)
    obtain ⟨pr, hpr⟩ := attempt_loop_no_fatal (oracle i)
      (dir ++ "/" ++ p.title ++ ".zip") (hnf i) ma 0
    rcases hAL : attempt_loop (oracle i) (dir ++ "/" ++ p.title ++ ".zip")
      0 ma with ⟨c, res⟩
    rw [hAL] at hpr
    dsimp only at hpr
    subst hpr
    rcases pr with ⟨path, inf⟩
    have hc : c ≤ ma := by
      have h := attempt_loop_calls_le (oracle i)
        (dir ++ "/" ++ p.title ++ ".zip") ma 0
      rw [hAL] at h
      exact h
    refine ⟨⟨c, path, inf⟩ :: entriesT, ?_, ?_, ?_, ?_⟩
    · simp [download_all_go, hAL, hT]
    · simp [hlenT]
    · intro en hen
      rcases List.mem_cons.mp hen with he | he
      · rw [he]
        exact hc
      · exact hcallsT en he
    · intro k hk herr
      cases k with
      | zero =>
        have hall := attempt_loop_all_errors (oracle i)
          (dir ++ "/" ++ p.title ++ ".zip") (by simpa using herr) ma 0
        rw [hAL] at hall
        have h1 : c = ma := congrArg Prod.fst hall
        have h2 : (Except.ok (ε := Unit) (path, inf))
            = .ok (dir ++ "/" ++ p.title ++ ".zip",
                (none : Option ProductInfo)) := congrArg Prod.snd hall
        have h3 := Except.ok.inj h2
        simp [h1, (Prod.mk.injEq _ _ _ _).mp h3]
      | succ k =>
        have hk2 : k < rest.length := by
          simp only [List.length_cons] at hk
          omega
        have harith : i + 1 + k = i + (k + 1) := by omega
        have := hkT k hk2 (by rw [harith]; exact herr)
        simpa using this

/-- C1: for every product list and every `max_attempts`, `download_all`
invokes the underlying `download` at most `max_attempts` times per product;
when every attempt for some product raises a non-fatal error, `download` is
called exactly `max_attempts` times for it, its entry in the result map has a
`None` product info, and the batch still produces one entry per product. -/
theorem C1_download_all_bounded_retries (products : List RawProduct)
    (oracle : Nat → Nat → AttemptOutcome) (dir : String) (ma : Nat)
    (hnf : ∀ i j, oracle i j ≠ .fatal) :
    ∃ entries, download_all products oracle dir ma = .ok entries
      ∧ entries.length = products.length
      ∧ (∀ en ∈ entries, en.calls ≤ ma)
      ∧ (∀ k (hk : k < products.length),
          (∀ j, oracle k j = .invalidChecksum ∨ oracle k j = .otherError) →
          entries[k]? = some
            ⟨ma, dir ++ "/" ++ (products.get ⟨k, hk⟩).title ++ ".zip",
              none⟩) := by
  obtain ⟨entries, h1, h2, h3, h4⟩ :=
    download_all_go_spec oracle dir ma hnf products 0
  refine ⟨entries, h1, h2, h3, fun k hk herr => ?_⟩
  exact h4 k hk (by simpa using herr)

/-- Attempt oracle for the C1 witness: every attempt of the first product
raises a non-fatal error; every other product succeeds at once. -/
def witness_oracle_retry (i : Nat) (_j : Nat) : AttemptOutcome :=
  if i = 0 then .otherError else .success "p" ⟨"i", "t", 1, "m", "u"⟩

/-- Witness for C1: a first product whose attempts always fail non-fatally
next to a second that succeeds at once. -/
theorem C1_download_all_bounded_retries_witness :
    ∃ entries, download_all [⟨"a", "ta"⟩, ⟨"b", "tb"⟩]
        witness_oracle_retry "." 3 = .ok entries
      ∧ entries.length = ([⟨"a", "ta"⟩, ⟨"b", "tb"⟩] : List RawProduct).length
      ∧ (∀ en ∈ entries, en.calls ≤ 3)
      ∧ (∀ k (hk : k < ([⟨"a", "ta"⟩, ⟨"b", "tb"⟩] : List RawProduct).length),
          (∀ j, witness_oracle_retry k j = .invalidChecksum
            ∨ witness_oracle_retry k j = .otherError) →
          entries[k]? = some
            ⟨3, "." ++ "/" ++ (([⟨"a", "ta"⟩, ⟨"b", "tb"⟩] :
                List RawProduct).get ⟨k, hk⟩).title ++ ".zip", none⟩) :=
  C1_download_all_bounded_retries [⟨"a", "ta"⟩, ⟨"b", "tb"⟩]
    witness_oracle_retry "." 3
    (by intro i j; cases i <;> simp [witness_oracle_retry])

/-- C8: a fatal outcome (`KeyboardInterrupt`, `SystemExit`, `SystemError`,
`MemoryError`) during a `download_all` attempt propagates immediately — the
loop stops after that very call, it is never retried, and the whole batch
aborts with no per-item record — while every other exception is caught and
merely consumes one unit of the attempt budget. -/
theorem C8_fatal_propagates (oracle : Nat → Nat → AttemptOutcome)
    (dir : String) (ma jf : Nat) (p : RawProduct) (rest : List RawProduct)
    (hjf : jf < ma)
    (hpre : ∀ j, j < jf →
      oracle 0 j = .invalidChecksum ∨ oracle 0 j = .otherError)
    (hfatal : oracle 0 jf = .fatal) :
    attempt_loop (oracle 0) (dir ++ "/" ++ p.title ++ ".zip") 0 ma
      = (jf + 1, .error ())
    ∧ download_all (p :: rest) oracle dir ma = .error ()
    ∧ (∀ (o : Nat → AttemptOutcome) (p0 : String) (j r : Nat),
        o j = .invalidChecksum ∨ o j = .otherError →
        attempt_loop o p0 j (r + 1)
          = ((attempt_loop o p0 (j + 1) r).1 + 1,
             (attempt_loop o p0 (j + 1) r).2)) := by
  have hAL := attempt_loop_fatal_at (oracle 0)
    (dir ++ "/" ++ p.title ++ ".zip") jf ma 0 hjf
    (fun k hk => by simpa using hpre k hk) (by simpa using hfatal)
  refine ⟨hAL, ?_, ?_⟩
  · simp [download_all, download_all_go, hAL]
  · intro o p0 j r h
    rcases h with h | h <;> simp [attempt_loop, h]

/-- Attempt oracle for the C8 witness: the first product's first attempt
fails recoverably and its second attempt is a fatal interrupt. -/
def witness_oracle_fatal (i : Nat) (j : Nat) : AttemptOutcome :=
  if i = 0 ∧ 1 ≤ j then .fatal else .otherError

/-- Witness for C8: one recoverable failure, then a fatal interrupt on the
second attempt, with a further product pending. -/
theorem C8_fatal_propagates_witness :
    attempt_loop (witness_oracle_fatal 0) ("." ++ "/" ++ "ta" ++ ".zip") 0 3
      = (2, .error ())
    ∧ download_all [⟨"a", "ta"⟩, ⟨"b", "tb"⟩] witness_oracle_fatal "." 3
      = .error () := by
  have h := C8_fatal_propagates witness_oracle_fatal "." 3 1
    ⟨"a", "ta"⟩ [⟨"b", "tb"⟩] (by omega)
    (by intro j hj
        have hj0 : j = 0 := by omega
        subst hj0
        right
        rfl)
    rfl
  exact ⟨h.1, h.2.1⟩

end Sentinelsat
